import Mathlib

/-!
Verification development for the Preql query compiler core
(src/preql/pql_objects.py, src/preql/casts.py, src/preql/interp_common.py).

The development shallowly embeds the parts of the code that the examined
properties are about:

Part 1 (namespace PObj) embeds pql_objects.py: the ast-level column types,
tables with their relation and back-reference columns, the autojoin
registration list of JoinableTable, the AutoJoin lowering algorithm, the
construction-time validation and alias assignment of Query, and the
null-aware lowering of Compare.

Part 2 (namespace PCasts) embeds casts.py: the type-directed cast rules,
over a type lattice and an instance model.  The pql_types and sql modules
and the objects helpers used by casts.py are not part of the three source
files; where the code depends on them they are modelled from the spec and
marked as such in doc comments.

Python mutable state is made explicit: the global MAKE_ALIAS counter is a
Nat threaded through the functions, the join registration list is passed
and returned, and Python exceptions become Except error values whose
constructors record the raise site and its message.
-/

/-- Decimal digit character for a single digit, as Python str produces it. -/
def pyDigitChar : Nat → Char
  | 0 => '0'
  | 1 => '1'
  | 2 => '2'
  | 3 => '3'
  | 4 => '4'
  | 5 => '5'
  | 6 => '6'
  | 7 => '7'
  | 8 => '8'
  | 9 => '9'
  | _ => '?'

/-- Fuel-driven decimal digit list of a natural number (most significant first).
Structural recursion on the fuel keeps the function kernel-reducible; a fuel of
n + 1 always suffices since the argument shrinks by a factor of ten each step. -/
def pyDigitsAux : Nat → Nat → List Char
  | 0, _ => []
  | fuel + 1, n =>
    if n < 10 then [pyDigitChar n]
    else pyDigitsAux fuel (n / 10) ++ [pyDigitChar (n % 10)]

/-- Decimal digit list of a natural number, most significant digit first. -/
def pyDigits (n : Nat) : List Char :=
  pyDigitsAux (n + 1) n

/-- Embedding of Python str on a non-negative int: its decimal spelling. -/
def pyStr (n : Nat) : String :=
  String.mk (pyDigits n)

/-- Embedding of Python base.replace with a one-character pattern: pointwise
character replacement of every dot by an underscore. -/
def replaceDots (s : String) : String :=
  String.mk (s.data.map (fun c => if c == '.' then '_' else c))

namespace PObj

/-- Column types from ast_classes as used by pql_objects.py: identity columns,
forward relation columns (naming the referenced table), back-reference columns
(naming the table owning the forward relation), scalar types, and the array
type produced by the aggregation wrapper. -/
inductive AstType where
  | idType (table : String)
  | relationalType (table_name : String)
  | backRefType (table : String)
  | intType
  | strType
  | boolType
  | floatType
  | arrayType (elem : AstType)
deriving DecidableEq

/-- An ast.Column: its name, its type, and its backref attribute, which for a
back-reference column names the relation column on the other table that
declared the forward edge (None otherwise). -/
structure AstColumn where
  name : String
  type : AstType
  backref : Option String
deriving DecidableEq

/-- The data of a ColumnRef as seen by table and join lowering: the wrapped
ast.Column, the SQL alias assigned at construction, and the invoked flag that
gates back-reference columns out of the SQL projection until they are used. -/
structure TColumn where
  col : AstColumn
  sql_alias : String
  invoked : Bool
deriving DecidableEq

/-- A participant table of an AutoJoin (a StoredTable, or a JoinableTable with
no further pending joins, whose column view coincides with its stored table).
tid models Python object identity, so the same declared table reused in two
roles is two values differing in tid. -/
structure PTable where
  tid : Nat
  name : String
  columns : List TColumn
deriving DecidableEq

/-- The SQL AST nodes built by pql_objects.py.  The first argument of the
Python constructors carries the pql object used later for row decoding, not
SQL content, and is omitted here. -/
inductive Sql where
  | null
  | tableRef (name : String)
  | columnRef (name : String)
  | columnAlias (code : Sql) (targetName : String)
  | select (table : Sql) (fields : List Sql)
  | compare (op : String) (exprs : List Sql)
  | arith (op : String) (exprs : List Sql)
  | join (tables : List Sql) (conds : List Sql) (joinKind : String)
  | primitive (reprText : String)

/-- Table.sql_projection: all columns except back-reference columns that were
never invoked. -/
def PTable.sql_projection (t : PTable) : List TColumn :=
  t.columns.filter (fun c =>
    match c.col.type with
    | .backRefType _ => c.invoked
    | _ => true)

/-- StoredTable.to_sql: select the aliased projection columns from the table
reference. -/
def PTable.to_sql (t : PTable) : Sql :=
  .select (.tableRef t.name)
    (t.sql_projection.map (fun c => .columnAlias (.columnRef c.col.name) c.sql_alias))

/-- Table.get_column: look the column up by its pql name. -/
def PTable.get_column (t : PTable) (nm : String) : Option TColumn :=
  t.columns.find? (fun c => c.col.name == nm)

/-- Table.cols_by_type restricted to ast.IdType, keeping the dict items shape:
pairs of the column name and the underlying ast.Column. -/
def PTable.colsById (t : PTable) : List (String × AstColumn) :=
  t.columns.filterMap (fun c =>
    match c.col.type with
    | .idType _ => some (c.col.name, c.col)
    | _ => none)

/-- Table.cols_by_type restricted to ast.RelationalType, keeping only the dict
values: the underlying ast.Columns. -/
def PTable.colsByRel (t : PTable) : List AstColumn :=
  t.columns.filterMap (fun c =>
    match c.col.type with
    | .relationalType _ => some c.col
    | _ => none)

/-- JoinableTable.add_autojoin: append the (table, is_fwd, col) triple to the
join registration list unless the identical triple is already present. -/
def add_autojoin (joins : List (PTable × Bool × TColumn)) (table : PTable)
    (is_fwd : Bool) (col : TColumn) : List (PTable × Bool × TColumn) :=
  let join := (table, is_fwd, col)
  if join ∈ joins then joins else joins ++ [join]

/-- The property claimed of the join registration list: a given
(other table, direction) pair appears at most once. -/
def pairRegisteredAtMostOnce (joins : List (PTable × Bool × TColumn)) : Prop :=
  ∀ (t : PTable) (d : Bool),
    joins.countP (fun j => j.1 == t && j.2.1 == d) ≤ 1

/-- Exceptions that AutoJoin.to_sql can raise: the arity assertion, the
one-element unpacking failures, the missing-attribute crashes, and the
ambiguity error whose message names both tables. -/
inductive JoinError where
  | assertionError
  | unpackError
  | attributeError
  | ambiguity (table1 : String) (table2 : String)
deriving DecidableEq

/-- The user-visible message of each exception; the ambiguity case is the
format string of the source, More than 1 relation between %s <-> %s. -/
def JoinError.message : JoinError → String
  | .assertionError => ("AssertionError")
  | .unpackError => ("ValueError: not exactly one value to unpack")
  | .attributeError => ("AttributeError")
  | .ambiguity t1 t2 =>
    ("More than 1 relation between ") ++ t1 ++ (" <-> ") ++ t2

/-- An AutoJoin node: the participant tables, the direction flag, and the
column whose dereference registered the join. -/
structure AutoJoin where
  tables : List PTable
  is_fwd : Bool := true
  col : Option TColumn := none

/-- Single-element unpacking, x ,= xs in the source. -/
def unpackSingle {α : Type} : List α → Except JoinError α
  | [x] => .ok x
  | _ => .error .unpackError

/-- Read the table attribute of an IdType column type. -/
def idTableName (c : AstColumn) : Except JoinError String :=
  match c.type with
  | .idType t => .ok t
  | _ => .error .attributeError

/-- The filter applied to a relation column: its target table must be the
other participant, and for a reverse join its name must equal the backref
name of the column that registered the join (a comparison against a Python
None backref is always false). -/
def relMatches (is_fwd : Bool) (colName : Option String) (otherTable : String)
    (c : AstColumn) : Bool :=
  match c.type with
  | .relationalType tn => tn == otherTable && (is_fwd || colName == some c.name)
  | _ => false

/-- The degenerate self-reference collapse: exactly two candidate edges that
are exact mirror images of each other are collapsed to the first. -/
def collapseMirror (cands : List (PTable × AstColumn × PTable)) :
    List (PTable × AstColumn × PTable) :=
  match cands with
  | [j0, j1] => if (j1.2.2, j1.2.1, j1.1) = j0 then [j0] else [j0, j1]
  | l => l

/-- The candidate-collection phase of AutoJoin.to_sql: assert two participant
tables, order them by the direction flag, extract the single identity column
of each side and the two table names from those identity columns, read the
backref name off the registering column, filter the relation columns of both
sides, and apply the mirror collapse.  Returns both table names and the
remaining candidate edges. -/
def AutoJoin.candidates (aj : AutoJoin) :
    Except JoinError (String × String × List (PTable × AstColumn × PTable)) := do
  if aj.tables.length = 2 then pure () else throw .assertionError
  let tabs := if aj.is_fwd then aj.tables else aj.tables.reverse
  match tabs with
  | [ta, tb] => do
    let id0 ← unpackSingle ta.colsById
    let id1 ← unpackSingle tb.colsById
    let rels0 := ta.colsByRel
    let rels1 := tb.colsByRel
    let table1 ← idTableName id0.2
    let table2 ← idTableName id1.2
    let colName ← match aj.col with
      | some c => pure c.col.backref
      | none => throw .attributeError
    let cands :=
      (rels0.filter (relMatches aj.is_fwd colName table2)).map (fun c => (ta, c, tb))
        ++ (rels1.filter (relMatches aj.is_fwd colName table1)).map (fun c => (tb, c, ta))
    pure (table1, table2, collapseMirror cands)
  | _ => throw .assertionError

/-- The edge-selection phase of AutoJoin.to_sql: more than one remaining
candidate raises the ambiguity error naming both tables; otherwise the single
candidate is unpacked (an empty list is an unpacking error). -/
def AutoJoin.resolve (aj : AutoJoin) :
    Except JoinError (PTable × AstColumn × PTable) := do
  let (table1, table2, cands) ← aj.candidates
  if cands.length > 1 then throw (.ambiguity table1 table2)
  else unpackSingle cands

/-- AutoJoin.to_sql: resolve the single join edge, lower both tables in
source-then-destination order, reverse the pair for a reverse join, and emit
the join of the two lowered tables on source.relation_column = target.id,
with an empty join qualifier for a forward join and a left qualifier for a
reverse join. -/
def AutoJoin.to_sql (aj : AutoJoin) : Except JoinError Sql := do
  let (src, rel, dst) ← aj.resolve
  let sqls0 := [src.to_sql, dst.to_sql]
  let sqls := if aj.is_fwd then sqls0 else sqls0.reverse
  let keyCol ← match src.get_column rel.name with
    | some c => pure c.sql_alias
    | none => throw .attributeError
  let dstId ← match dst.get_column ("id") with
    | some c => pure c.sql_alias
    | none => throw .attributeError
  pure (.join sqls [.compare ("=") [.columnRef keyCol, .columnRef dstId]]
    (if aj.is_fwd then ("") else ("left")))

/-- A field handed to a Query node: its pql name, its ast type, and its
sql_alias attribute, which is absent (None) until one is assigned. -/
structure QField where
  name : String
  type : AstType
  sql_alias : Option String
deriving DecidableEq

/-- make_alias: replace dots in the base by underscores and append the next
value of the global MAKE_ALIAS counter; returns the alias together with the
advanced counter. -/
def make_alias (base : String) (counter : Nat) : String × Nat :=
  (replaceDots base ++ pyStr counter, counter + 1)

/-- The construction-time TypeError raised by Query._init for a
back-reference-typed field in the non-aggregated field list (the source
format string, including its trailing blank). -/
def misplacedMsg (nm : String) : String :=
  ("Misplaced column \"") ++ nm
    ++ ("\". Aggregated columns must appear after the aggregation operator \"=>\" ")

/-- Whether an ast type is the back-reference kind. -/
def isBackRefType : AstType → Bool
  | .backRefType _ => true
  | _ => false

/-- The validation loop of Query._init over the non-aggregated field list:
the first back-reference-typed field raises the misplaced-column TypeError. -/
def checkFields : List QField → Except String Unit
  | [] => .ok ()
  | f :: fs =>
    if isBackRefType f.type then .error (misplacedMsg f.name) else checkFields fs

/-- Python isinstance(f.type, Integer) in Query._init: field types are ast
type nodes and never instances of the Integer primitive class, so the test is
always false; kept as its own definition for fidelity with the source. -/
def isinstanceTypeInteger (_ : AstType) : Bool := false

/-- The aggregated-field wrapper of Query._init: wrap the field in Array
unless its type is an Integer instance (which never happens, see
isinstanceTypeInteger).  The Array wrapper exposes the name of the wrapped
field, has the array type over its type, and carries no sql_alias attribute
of its own. -/
def wrapAgg (f : QField) : QField :=
  if isinstanceTypeInteger f.type then f
  else { name := f.name, type := .arrayType f.type, sql_alias := none }

/-- The alias-assignment loop of Query._init: every field whose sql_alias
attribute is absent receives make_alias of its name, consuming the counter in
list order; fields that already carry an alias keep it. -/
def assign_aliases : List QField → Nat → List QField × Nat
  | [], n => ([], n)
  | f :: fs, n =>
    match f.sql_alias with
    | some _ =>
      let r := assign_aliases fs n
      (f :: r.1, r.2)
    | none =>
      let a := make_alias f.name n
      let r := assign_aliases fs a.2
      ({ f with sql_alias := some a.1 } :: r.1, r.2)

/-- Query._init: reject back-reference-typed fields in the non-aggregated
list, default the field list to the table columns when absent, wrap the
aggregated fields, then assign aliases across the concatenation of both
lists.  Returns the two field lists and the advanced alias counter. -/
def query_init (tableColumns : List QField) (fields : Option (List QField))
    (agg_fields : Option (List QField)) (counter : Nat) :
    Except String (List QField × List QField × Nat) := do
  checkFields (fields.getD [])
  let fs := match fields with
    | some fs => fs
    | none => tableColumns
  let ags := (agg_fields.getD []).map wrapAgg
  let r := assign_aliases (fs ++ ags) counter
  pure (r.1.take fs.length, r.1.drop fs.length, r.2)

/-- A pql expression operand of a Compare node: the null singleton, or a
literal with its Python repr text. -/
inductive PExpr where
  | nullLit
  | integer (value : Nat)
  | stringLit (value : String)
deriving DecidableEq

/-- Operand lowering: Null.to_sql is the sql null literal; a primitive lowers
to a sql Primitive carrying its repr text (the type tag argument of the
Python constructor is omitted, see Sql). -/
def PExpr.to_sql : PExpr → Sql
  | .nullLit => .null
  | .integer n => .primitive (pyStr n)
  | .stringLit s => .primitive (("\"") ++ s ++ ("\""))

/-- is_null from pql_objects.py. -/
def is_null (e : Sql) : Sql :=
  .compare ("is") [e, .null]

/-- is_not_null from pql_objects.py. -/
def is_not_null (e : Sql) : Sql :=
  .compare ("is not") [e, .null]

/-- A Compare node over pql operands. -/
structure PCompare where
  op : String
  exprs : List PExpr

/-- Python exceptions raised by Compare.to_sql: the two-operand assertion and
the KeyError from looking a non-equality operator up in the null-rewrite
dict. -/
inductive CompareError where
  | assertionError
  | keyError
deriving DecidableEq

/-- Compare.to_sql: assert exactly two operands; when one operand is the null
singleton rewrite the operator through the dict mapping = to is and != to is
not (every other operator raises KeyError); lower both operands; and for a
null-free != comparison wrap the plain comparison in the OR of the two
one-sided null conjunctions so that the result is true when exactly one side
is NULL. -/
def PCompare.to_sql (c : PCompare) : Except CompareError Sql := do
  if c.exprs.length = 2 then pure () else throw .assertionError
  let nulls := c.exprs.any (fun e => e == .nullLit)
  let op ← if nulls then
      match c.op with
      | "=" => pure ("is")
      | "!=" => pure ("is not")
      | _ => throw .keyError
    else pure c.op
  let exprs := c.exprs.map PExpr.to_sql
  let compare := Sql.compare op exprs
  if op == "!=" then
    match exprs with
    | [e1, e2] =>
      pure (Sql.arith ("OR") [compare,
        Sql.arith ("AND") [is_null e1, is_not_null e2],
        Sql.arith ("AND") [is_null e2, is_not_null e1]])
    | _ => throw .assertionError
  else pure compare

end PObj

namespace PCasts

mutual

/-- The type vocabulary of pql_types as consumed by casts.py.  Modelled from
the spec: the pql_types module is not among the source files; the tags are
the ones the cast rules dispatch on (section 3 of the spec lists the closed
set). -/
inductive PqlType where
  | tnull
  | tbool
  | tint
  | tfloat
  | tstring
  | tid
  | trelation
  | tunknown
  | tany
  | tlist (elem : PqlType)
  | taggregate (elem : PqlType)
  | tvectorized (elem : PqlType)
  | ttable (elems : PqlFields)

/-- The ordered name-to-type field mapping of a table type. -/
inductive PqlFields where
  | nil
  | cons (name : String) (type : PqlType) (rest : PqlFields)

end

/-- Number of columns of a table type. -/
def PqlFields.length : PqlFields → Nat
  | .nil => 0
  | .cons _ _ rest => rest.length + 1

mutual

/-- Modelled from the spec: the subtype partial order of the type lattice
(section 4.1): reflexive, covariant in element and field types, any is a
supertype of everything, unknown is a subtype of everything for dispatch
purposes, and an aggregate is a subtype of a list when its element is. -/
def subt : PqlType → PqlType → Bool
  | .tunknown, _ => true
  | _, .tany => true
  | .tnull, .tnull => true
  | .tbool, .tbool => true
  | .tint, .tint => true
  | .tfloat, .tfloat => true
  | .tstring, .tstring => true
  | .tid, .tid => true
  | .trelation, .trelation => true
  | .tlist a, .tlist b => subt a b
  | .taggregate a, .tlist b => subt a b
  | .taggregate a, .taggregate b => subt a b
  | .tvectorized a, .tvectorized b => subt a b
  | .ttable as, .ttable bs => subtFields as bs
  | _, _ => false

/-- Componentwise field subtyping: same names in the same order, each field
type a subtype of its counterpart. -/
def subtFields : PqlFields → PqlFields → Bool
  | .nil, .nil => true
  | .cons n t r, .cons n2 t2 r2 => n == n2 && subt t t2 && subtFields r r2
  | _, _ => false

end

/-- The SQL AST nodes built by casts.py (Select, ColumnAlias, Name, Cast),
plus a column reference used to model the value column of a list instance
and the code of the empty-list singleton. -/
inductive SqlC where
  | name (type : PqlType) (nm : String)
  | columnAlias (code : SqlC) (targetName : String)
  | select (type : PqlType) (table : SqlC) (fields : List SqlC)
  | cast (type : PqlType) (asType : String) (code : SqlC)
  | columnRef (nm : String)
  | emptyListCode

/-- Modelled from the spec: the instance model of the objects module as far
as casts.py touches it.  A concrete instance is a SQL fragment plus a type
(its subquery map, irrelevant to the cast rules, is omitted); EmptyList is
the singleton list-of-null instance; an aggregate instance wraps its element
instance; a vectorized instance wraps the unvectorized one. -/
inductive Instance where
  | mk (code : SqlC) (type : PqlType)
  | emptyList
  | agg (elem : Instance)
  | vec (elem : Instance)

/-- The type of an instance; the spec fixes the wrappers: EmptyList has type
list of null, an aggregate instance tags its element type, a vectorized one
likewise. -/
def Instance.type : Instance → PqlType
  | .mk _ t => t
  | .emptyList => .tlist .tnull
  | .agg e => .taggregate e.type
  | .vec e => .tvectorized e.type

/-- The SQL fragment of an instance; aggregate and vectorized instances
delegate to the wrapped instance (spec, section 3). -/
def Instance.code : Instance → SqlC
  | .mk c _ => c
  | .emptyList => .emptyListCode
  | .agg e => e.code
  | .vec e => e.code

/-- Embedding of inst.replace with a type argument: same SQL fragment with a
relabelled type. -/
def Instance.replaceType (i : Instance) (t : PqlType) : Instance :=
  .mk i.code t

/-- The Python identity test inst is objects.EmptyList against the singleton. -/
def Instance.isEmptyListSingleton : Instance → Bool
  | .emptyList => true
  | _ => false

/-- Modelled from the spec: a list instance exposes a single column named
value whose type is the element type of the list. -/
def listValueColumn (elemType : PqlType) : Instance :=
  .mk (.columnRef ("value")) elemType

/-- objects.aggregate: wrap an instance as an aggregate instance. -/
def aggregate (i : Instance) : Instance :=
  .agg i

/-- objects.unvectorized: unwrap a vectorized instance. -/
def unvectorized : Instance → Instance
  | .vec e => e
  | i => i

/-- Modelled from the spec: objects.Instance.make and objects.ListInstance.make
construct a concrete instance from a code fragment and a type (the dependency
list argument of the source only merges subquery maps, which are omitted
here). -/
def Instance.make (code : SqlC) (t : PqlType) : Instance :=
  .mk code t

/-- The Signal.make(T.TypeError, ...) raise sites of casts.py, one
constructor per format string:
tooManyColumns is Cannot cast %s to %s. Too many columns;
elementsNotMatching is Cannot cast %s to %s. Elements not matching;
notImplemented is Cast not implemented for %s->%s. -/
inductive CastError where
  | tooManyColumns (instType : PqlType) (targetType : PqlType)
  | elementsNotMatching (instType : PqlType) (targetType : PqlType)
  | notImplemented (instType : PqlType) (targetType : PqlType)

/-- The SQL dialect targets of the sql module; casts.py only distinguishes
the mysql target from the rest. -/
inductive SqlTarget where
  | mysql
  | sqlite
  | postgres
deriving DecidableEq

/-- The dispatched _cast rules of casts.py, one match arm per registered
rule, dispatching on the (source type, target type) pair exactly as the
type-directed dispatch does; the final arm is the unannotated fallback that
raises the not-implemented TypeError.  In the vectorized rule the source
passes x.type for the unwrapped x, which equals the vectorized element type
under the dispatch invariant that the type argument is the type of the
instance argument; the element type from the pattern is used here so the
recursion is structural. -/
def _cast (target : SqlTarget) : PqlType → PqlType → Instance → Except CastError Instance
  | .tlist a, .tlist b, inst =>
    if inst.isEmptyListSingleton then .ok (inst.replaceType (.tlist b))
    else if subt a b then .ok inst
    else do
      let value := listValueColumn a
      let elem ← _cast target a b value
      let code := SqlC.select (.tlist b) inst.code [.columnAlias elem.code ("value")]
      .ok (Instance.mk code (.tlist elem.type))
  | .taggregate a, .tlist b, inst => do
    let res ← _cast target a b (match inst with | .agg e => e | i => i)
    .ok (aggregate res)
  | .ttable es, .tlist b, inst =>
    match es with
    | .cons elemName elemType .nil =>
      if subt elemType b then
        let code := SqlC.select (.tlist elemType) inst.code
          [.columnAlias (.name elemType elemName) ("value")]
        .ok (Instance.make code (.tlist elemType))
      else .error (.elementsNotMatching (.ttable es) (.tlist b))
    | _ => .error (.tooManyColumns (.ttable es) (.tlist b))
  | .tid, .tint, inst => .ok (inst.replaceType .tint)
  | .tfloat, .tint, inst =>
    let t := if target = .mysql then ("signed integer") else ("int")
    .ok (Instance.make (.cast .tint t inst.code) .tint)
  | .tbool, .tint, inst =>
    let t := if target = .mysql then ("signed integer") else ("int")
    .ok (Instance.make (.cast .tint t inst.code) .tint)
  | .tint, .tfloat, inst =>
    .ok (Instance.make (.cast .tfloat ("float") inst.code) .tfloat)
  | .tbool, .tfloat, inst =>
    .ok (Instance.make (.cast .tfloat ("float") inst.code) .tfloat)
  | .tbool, .tstring, inst =>
    .ok (Instance.make (.cast .tstring ("varchar") inst.code) .tstring)
  | .tint, .tstring, inst =>
    .ok (Instance.make (.cast .tstring ("varchar") inst.code) .tstring)
  | .tfloat, .tstring, inst =>
    .ok (Instance.make (.cast .tstring ("varchar") inst.code) .tstring)
  | .tstring, .tstring, inst =>
    .ok (Instance.make (.cast .tstring ("varchar") inst.code) .tstring)
  | .tvectorized a, tgt, inst =>
    _cast target a tgt (unvectorized inst)
  | .trelation, .tid, inst => .ok (inst.replaceType .tid)
  | s, t, _ => .error (.notImplemented s t)

/-- Modelled from the spec: the cast entry point of the Cast Resolver
(section 4.2).  Its identity rule - a no-op returning the instance unchanged
whenever the source type is already a subtype of the target - lives in the
resolver around the dispatched _cast rules; that surrounding code is not
among the source files, so it is taken from the spec verbatim: identity when
source is a subtype of target, otherwise dispatch to the _cast rules. -/
def cast (target : SqlTarget) (inst : Instance) (t : PqlType) : Except CastError Instance :=
  if subt inst.type t then .ok inst else _cast target inst.type t inst

end PCasts

/-! Analysis helpers used to reason about the generated aliases: the decimal
suffix of an alias recovers the counter value that make_alias consumed. -/

/-- Whether a character is a decimal digit. -/
def isDigitB (c : Char) : Bool :=
  48 ≤ c.toNat && c.toNat ≤ 57

/-- The numeric value of a decimal digit character. -/
def digitVal (c : Char) : Nat :=
  c.toNat - 48

/-- The number denoted by a decimal digit list, most significant first. -/
def digitsVal (l : List Char) : Nat :=
  l.foldl (fun a c => 10 * a + digitVal c) 0

/-- The number denoted by the maximal decimal-digit suffix of a string. -/
def counterOfAlias (s : String) : Nat :=
  digitsVal ((s.data.reverse.takeWhile isDigitB).reverse)

/-- Whether a string ends in a decimal digit. -/
def endsInDigit (s : String) : Bool :=
  match s.data.reverse with
  | [] => false
  | c :: _ => isDigitB c

namespace PObj

/-- The alias-uniqueness property claimed of Query construction: whenever the
node constructs, the aliases across the whole projected-plus-aggregated field
list are pairwise distinct. -/
def queryAliasesDistinct (tableColumns : List QField) (fields : Option (List QField))
    (agg_fields : Option (List QField)) (counter : Nat) : Prop :=
  ∀ fs ags n1, query_init tableColumns fields agg_fields counter = .ok (fs, ags, n1) →
    ((fs ++ ags).map (fun f => f.sql_alias)).Nodup

/-- The identity column of the self-reference test table: an id column whose
IdType names the table itself. -/
def selfRefIdCol (nm aId : String) : TColumn :=
  ⟨⟨("id"), .idType nm, none⟩, aId, false⟩

/-- The single relation column of the self-reference test table, pointing
back at the same table. -/
def selfRefRelCol (nm rn aRel : String) : TColumn :=
  ⟨⟨rn, .relationalType nm, none⟩, aRel, true⟩

/-- A table with one identity column and one relation column pointing at the
table itself; the tid argument distinguishes the two object occurrences that
participate in the self-join. -/
def selfRefTable (tid : Nat) (nm rn aId aRel : String) : PTable :=
  ⟨tid, nm, [selfRefIdCol nm aId, selfRefRelCol nm rn aRel]⟩

/-- The AutoJoin produced when the self-referencing relation column is
dereferenced: the two occurrences of the table, forward direction, registered
by the relation column. -/
def selfRefAutoJoin (i j : Nat) (nm rn aId aRel : String) : AutoJoin :=
  ⟨[selfRefTable i nm rn aId aRel, selfRefTable j nm rn aId aRel], true,
    some (selfRefRelCol nm rn aRel)⟩

/-- Ambiguity fixture: table A with an id column and a relation column
pointing at B. -/
def ambTableA : PTable :=
  ⟨0, ("A"), [⟨⟨("id"), .idType ("A"), none⟩, ("aid1"), false⟩,
    ⟨⟨("to_b"), .relationalType ("B"), none⟩, ("tob3"), true⟩]⟩

/-- Ambiguity fixture: table B with an id column and a relation column
pointing back at A. -/
def ambTableB : PTable :=
  ⟨1, ("B"), [⟨⟨("id"), .idType ("B"), none⟩, ("bid2"), false⟩,
    ⟨⟨("to_a"), .relationalType ("A"), none⟩, ("toa4"), true⟩]⟩

/-- Ambiguity fixture: the forward AutoJoin of the two tables above, where
both relation columns survive the filter and are not mirror images. -/
def ambAutoJoin : AutoJoin :=
  ⟨[ambTableA, ambTableB], true,
    some ⟨⟨("to_b"), .relationalType ("B"), none⟩, ("tob3"), true⟩⟩

end PObj

/-! Theorems. -/

namespace PObj

/-- Registration keeps the join list free of duplicate triples. -/
theorem add_autojoin_nodup {js : List (PTable × Bool × TColumn)} (h : js.Nodup)
    (t : PTable) (d : Bool) (c : TColumn) : (add_autojoin js t d c).Nodup := by
  unfold add_autojoin
  by_cases hm : (t, d, c) ∈ js
  · simpa [hm] using h
  · simp [hm, List.nodup_append, h]

/-- Any registration sequence starting from an empty join list keeps the list
free of duplicate triples. -/
theorem foldl_add_autojoin_nodup (ops : List (PTable × Bool × TColumn)) :
    ∀ js : List (PTable × Bool × TColumn), js.Nodup →
      (ops.foldl (fun js j => add_autojoin js j.1 j.2.1 j.2.2) js).Nodup := by
  induction ops with
  | nil => intro js h; simpa using h
  | cons j ops ih =>
    intro js h
    exact ih _ (add_autojoin_nodup h j.1 j.2.1 j.2.2)

/-- Claim C5, counterexample to the claim as stated: dereferencing two
different relation columns that point at the same partner table registers two
triples with the same (other table, direction) pair, so the pair appears
twice in the active-join set. -/
theorem claim_C5_counterexample :
    ¬ pairRegisteredAtMostOnce
      (add_autojoin
        (add_autojoin [] ⟨1, ("B"), []⟩ true
          ⟨⟨("r1"), .relationalType ("B"), none⟩, ("r10"), false⟩)
        ⟨1, ("B"), []⟩ true
        ⟨⟨("r2"), .relationalType ("B"), none⟩, ("r20"), false⟩) :=
  fun h => absurd (h ⟨1, ("B"), []⟩ true) (by decide)

/-- Claim C5 (amended): registering autojoins preserves the invariant that a
given (other table, direction, originating column) triple appears at most
once in the active-join set, no matter how the registrations are sequenced;
the same (other table, direction) pair can still appear under two different
originating columns. -/
theorem claim_C5 (ops : List (PTable × Bool × TColumn)) :
    (ops.foldl (fun js j => add_autojoin js j.1 j.2.1 j.2.2) []).Nodup :=
  foldl_add_autojoin_nodup ops [] List.nodup_nil

/-- A field list containing a back-reference-typed field makes the validation
loop raise the misplaced-column TypeError (for the first such field). -/
theorem checkFields_any_backref (fs : List QField)
    (h : fs.any (fun g => isBackRefType g.type) = true) :
    ∃ nm, checkFields fs = .error (misplacedMsg nm) := by
  induction fs with
  | nil => simp at h
  | cons f fs ih =>
    by_cases hf : isBackRefType f.type
    · exact ⟨f.name, by simp [checkFields, hf]⟩
    · simp only [List.any_cons, hf, Bool.false_or] at h
      obtain ⟨nm, hnm⟩ := ih h
      exact ⟨nm, by simp [checkFields, hf, hnm]⟩

/-- A field list without back-reference-typed fields passes the validation
loop. -/
theorem checkFields_ok (fs : List QField)
    (h : ∀ g ∈ fs, isBackRefType g.type = false) :
    checkFields fs = .ok () := by
  induction fs with
  | nil => rfl
  | cons f fs ih =>
    have hf := h f (by simp)
    simp [checkFields, hf]
    exact ih (fun g hg => h g (by simp [hg]))

/-- Claim C2: a back-reference-typed field in the non-aggregated field list
makes Query construction raise the misplaced-column TypeError, while the same
field placed in the aggregated field list constructs successfully. -/
theorem claim_C2 (cols fields ags : List QField) (f : QField) (n : Nat) :
    (fields.any (fun g => isBackRefType g.type) = true →
      ∃ nm, query_init cols (some fields) (some ags) n = .error (misplacedMsg nm)) ∧
    ((∀ g ∈ fields, isBackRefType g.type = false) →
      isBackRefType f.type = true → f ∈ ags →
      ∃ r, query_init cols (some fields) (some ags) n = .ok r) := by
  constructor
  · intro h
    obtain ⟨nm, hnm⟩ := checkFields_any_backref fields h
    exact ⟨nm, by simp [query_init, hnm, bind, Except.bind]⟩
  · intro h _ _
    have hok := checkFields_ok fields h
    refine ⟨((assign_aliases (fields ++ ags.map wrapAgg) n).1.take fields.length,
             (assign_aliases (fields ++ ags.map wrapAgg) n).1.drop fields.length,
             (assign_aliases (fields ++ ags.map wrapAgg) n).2), ?_⟩
    simp [query_init, hok, bind, Except.bind, pure, Except.pure]

/-- Witness for claim C2 at a concrete back-reference field. -/
theorem claim_C2_witness :
    (∃ nm, query_init [] (some [⟨("bs"), .backRefType ("B"), none⟩]) (some []) 0
      = .error (misplacedMsg nm)) ∧
    (∃ r, query_init [] (some []) (some [⟨("bs"), .backRefType ("B"), none⟩]) 0
      = .ok r) :=
  ⟨(claim_C2 [] [⟨("bs"), .backRefType ("B"), none⟩] [] ⟨("bs"), .backRefType ("B"), none⟩ 0).1
      (by decide),
   (claim_C2 [] [] [⟨("bs"), .backRefType ("B"), none⟩] ⟨("bs"), .backRefType ("B"), none⟩ 0).2
      (by decide) (by decide) (by decide)⟩

/-- Claim C10: with exactly two operands, an equality or inequality against
the null literal lowers with the operator rewritten to is or is not, and a
null-free inequality lowers to the OR of the plain comparison with the two
one-sided null conjunctions. -/
theorem claim_C10 (a b : PExpr) (op : String) :
    ((op = ("=") ∨ op = ("!=")) → (a = .nullLit ∨ b = .nullLit) →
      PCompare.to_sql ⟨op, [a, b]⟩ =
        .ok (.compare (if op = ("=") then ("is") else ("is not"))
          [a.to_sql, b.to_sql])) ∧
    (a ≠ .nullLit → b ≠ .nullLit →
      PCompare.to_sql ⟨("!="), [a, b]⟩ =
        .ok (.arith ("OR") [.compare ("!=") [a.to_sql, b.to_sql],
          .arith ("AND") [is_null a.to_sql, is_not_null b.to_sql],
          .arith ("AND") [is_null b.to_sql, is_not_null a.to_sql]])) := by
  constructor
  · rintro (rfl | rfl) hnull
    · have hany : ([a, b].any (fun e => e == PExpr.nullLit)) = true := by
        rcases hnull with rfl | rfl <;> simp
      simp [PCompare.to_sql, hany, bind, Except.bind, pure, Except.pure]
    · have hany : ([a, b].any (fun e => e == PExpr.nullLit)) = true := by
        rcases hnull with rfl | rfl <;> simp
      simp [PCompare.to_sql, hany, bind, Except.bind, pure, Except.pure]
  · intro ha hb
    have hany : ([a, b].any (fun e => e == PExpr.nullLit)) = false := by
      simp [ha, hb]
    simp [PCompare.to_sql, hany, bind, Except.bind, pure, Except.pure]

/-- Witness for claim C10 at concrete operands. -/
theorem claim_C10_witness :
    (PCompare.to_sql ⟨("="), [.nullLit, .integer 5]⟩
      = .ok (.compare ("is") [.null, .primitive (pyStr 5)])) ∧
    (PCompare.to_sql ⟨("!="), [.integer 1, .integer 2]⟩
      = .ok (.arith ("OR")
          [.compare ("!=") [.primitive (pyStr 1), .primitive (pyStr 2)],
           .arith ("AND") [is_null (.primitive (pyStr 1)), is_not_null (.primitive (pyStr 2))],
           .arith ("AND") [is_null (.primitive (pyStr 2)), is_not_null (.primitive (pyStr 1))]])) :=
  ⟨(claim_C10 .nullLit (.integer 5) ("=")).1 (Or.inl rfl) (Or.inl rfl),
   (claim_C10 (.integer 1) (.integer 2) ("!=")).2 (by decide) (by decide)⟩

/-- Claim C1: when more than one candidate join edge remains after the
direction and back-reference-name filter (and the degenerate mirror
collapse), lowering the AutoJoin fails with the ambiguity error whose message
names both tables, rather than picking an edge arbitrarily. -/
theorem claim_C1 (aj : AutoJoin) (t1 t2 : String)
    (cands : List (PTable × AstColumn × PTable))
    (hc : aj.candidates = .ok (t1, t2, cands)) (hlen : cands.length > 1) :
    aj.to_sql = .error (.ambiguity t1 t2) ∧
    (JoinError.ambiguity t1 t2).message
      = ("More than 1 relation between ") ++ t1 ++ (" <-> ") ++ t2 := by
  have hres : aj.resolve = .error (.ambiguity t1 t2) := by
    simp [AutoJoin.resolve, hc, bind, Except.bind, hlen, throw, throwThe, MonadExceptOf.throw]
  exact ⟨by simp [AutoJoin.to_sql, hres, bind, Except.bind], rfl⟩

/-- Witness for claim C1: two tables each carrying an independent relation
column pointing at the other; both candidate edges survive the filter, they
are not mirror images, and lowering fails with the ambiguity error. -/
theorem claim_C1_witness :
    ambAutoJoin.candidates = .ok (("A"), ("B"),
      [(ambTableA, ⟨("to_b"), .relationalType ("B"), none⟩, ambTableB),
       (ambTableB, ⟨("to_a"), .relationalType ("A"), none⟩, ambTableA)]) ∧
    ambAutoJoin.to_sql = .error (.ambiguity ("A") ("B")) :=
  ⟨rfl, (claim_C1 ambAutoJoin ("A") ("B")
      [(ambTableA, ⟨("to_b"), .relationalType ("B"), none⟩, ambTableB),
       (ambTableB, ⟨("to_a"), .relationalType ("A"), none⟩, ambTableA)]
      rfl (by decide)).1⟩

/-- Claim C6: the two mirror-image candidate edges of a table joined with a
second occurrence of itself through its single self-referencing relation
column collapse to a single edge, and the AutoJoin lowers successfully
instead of failing as ambiguous. -/
theorem claim_C6 (i j : Nat) (nm rn aId aRel : String) (h : rn ≠ ("id")) :
    (selfRefAutoJoin i j nm rn aId aRel).candidates
      = .ok (nm, nm, [(selfRefTable i nm rn aId aRel, (selfRefRelCol nm rn aRel).col,
          selfRefTable j nm rn aId aRel)]) ∧
    (selfRefAutoJoin i j nm rn aId aRel).to_sql
      = .ok (.join [(selfRefTable i nm rn aId aRel).to_sql,
            (selfRefTable j nm rn aId aRel).to_sql]
          [.compare ("=") [.columnRef aRel, .columnRef aId]] ("")) := by
  have hne : ((("id") : String) == rn) = false := by
    simp only [beq_eq_false_iff_ne, ne_eq]
    exact fun hh => h hh.symm
  have hcand : (selfRefAutoJoin i j nm rn aId aRel).candidates
      = .ok (nm, nm, [(selfRefTable i nm rn aId aRel, (selfRefRelCol nm rn aRel).col,
          selfRefTable j nm rn aId aRel)]) := by
    simp [AutoJoin.candidates, selfRefAutoJoin, selfRefTable, selfRefIdCol, selfRefRelCol,
      PTable.colsById, PTable.colsByRel, unpackSingle, idTableName, relMatches,
      collapseMirror, bind, Except.bind, pure, Except.pure]
  refine ⟨hcand, ?_⟩
  have hres : (selfRefAutoJoin i j nm rn aId aRel).resolve
      = .ok (selfRefTable i nm rn aId aRel, (selfRefRelCol nm rn aRel).col,
          selfRefTable j nm rn aId aRel) := by
    simp [AutoJoin.resolve, hcand, bind, Except.bind, unpackSingle, pure, Except.pure]
  unfold AutoJoin.to_sql
  rw [hres]
  simp [bind, Except.bind, pure, Except.pure, selfRefAutoJoin, PTable.get_column,
    selfRefTable, selfRefIdCol, selfRefRelCol, List.find?, hne]

/-- Witness for claim C6 at a concrete self-referencing table. -/
theorem claim_C6_witness :
    (selfRefAutoJoin 0 1 ("A") ("mgr") ("i0") ("m1")).candidates
      = .ok (("A"), ("A"), [(selfRefTable 0 ("A") ("mgr") ("i0") ("m1"),
          (selfRefRelCol ("A") ("mgr") ("m1")).col,
          selfRefTable 1 ("A") ("mgr") ("i0") ("m1"))]) ∧
    (selfRefAutoJoin 0 1 ("A") ("mgr") ("i0") ("m1")).to_sql
      = .ok (.join [(selfRefTable 0 ("A") ("mgr") ("i0") ("m1")).to_sql,
            (selfRefTable 1 ("A") ("mgr") ("i0") ("m1")).to_sql]
          [.compare ("=") [.columnRef ("m1"), .columnRef ("i0")]] ("")) :=
  claim_C6 0 1 ("A") ("mgr") ("i0") ("m1") (by decide)

/-- Claim C7: a successfully resolved AutoJoin lowers to a join whose table
order follows the direction flag, whose qualifier is empty for a forward join
and left for a reverse join, and whose condition equates the relation column
of the source table with the id column of the destination table. -/
theorem claim_C7 (aj : AutoJoin) (src dst : PTable) (rel : AstColumn)
    (kcol dcol : TColumn)
    (hres : aj.resolve = .ok (src, rel, dst))
    (hk : src.get_column rel.name = some kcol)
    (hd : dst.get_column ("id") = some dcol) :
    aj.to_sql = .ok (.join
      (if aj.is_fwd then [src.to_sql, dst.to_sql] else [dst.to_sql, src.to_sql])
      [.compare ("=") [.columnRef kcol.sql_alias, .columnRef dcol.sql_alias]]
      (if aj.is_fwd then ("") else ("left"))) := by
  cases hfwd : aj.is_fwd <;>
    simp [AutoJoin.to_sql, hres, hk, hd, hfwd, bind, Except.bind, pure, Except.pure]

/-- Witness for claim C7 at a concrete reverse join: table B carries the
relation column a_ref pointing at table A, registered through the
back-reference column of A; the emitted join is left-qualified with the
tables in reversed order. -/
theorem claim_C7_witness :
    (AutoJoin.to_sql ⟨[⟨0, ("A"), [⟨⟨("id"), .idType ("A"), none⟩, ("aid1"), false⟩]⟩,
        ⟨1, ("B"), [⟨⟨("id"), .idType ("B"), none⟩, ("bid2"), false⟩,
          ⟨⟨("a_ref"), .relationalType ("A"), none⟩, ("aref5"), true⟩]⟩], false,
        some ⟨⟨("bs"), .backRefType ("B"), some ("a_ref")⟩, ("bs6"), true⟩⟩
      = .ok (.join
          [PTable.to_sql ⟨0, ("A"), [⟨⟨("id"), .idType ("A"), none⟩, ("aid1"), false⟩]⟩,
           PTable.to_sql ⟨1, ("B"), [⟨⟨("id"), .idType ("B"), none⟩, ("bid2"), false⟩,
             ⟨⟨("a_ref"), .relationalType ("A"), none⟩, ("aref5"), true⟩]⟩]
          [.compare ("=") [.columnRef ("aref5"), .columnRef ("aid1")]]
          ("left"))) :=
  claim_C7 _ (⟨1, ("B"), [⟨⟨("id"), .idType ("B"), none⟩, ("bid2"), false⟩,
      ⟨⟨("a_ref"), .relationalType ("A"), none⟩, ("aref5"), true⟩]⟩)
    (⟨0, ("A"), [⟨⟨("id"), .idType ("A"), none⟩, ("aid1"), false⟩]⟩)
    (⟨("a_ref"), .relationalType ("A"), none⟩)
    (⟨⟨("a_ref"), .relationalType ("A"), none⟩, ("aref5"), true⟩)
    (⟨⟨("id"), .idType ("A"), none⟩, ("aid1"), false⟩)
    rfl rfl rfl

end PObj

/-! Decimal-suffix analysis of generated aliases. -/

/-- A digit character produced from a digit is a digit. -/
theorem pyDigitChar_isDigit (d : Nat) (h : d < 10) : isDigitB (pyDigitChar d) = true := by
  match d, h with
  | 0, _ => decide
  | 1, _ => decide
  | 2, _ => decide
  | 3, _ => decide
  | 4, _ => decide
  | 5, _ => decide
  | 6, _ => decide
  | 7, _ => decide
  | 8, _ => decide
  | 9, _ => decide

/-- The digit value of the digit character of a digit is the digit. -/
theorem pyDigitChar_val (d : Nat) (h : d < 10) : digitVal (pyDigitChar d) = d := by
  match d, h with
  | 0, _ => decide
  | 1, _ => decide
  | 2, _ => decide
  | 3, _ => decide
  | 4, _ => decide
  | 5, _ => decide
  | 6, _ => decide
  | 7, _ => decide
  | 8, _ => decide
  | 9, _ => decide

/-- Appending a digit multiplies the denoted value by ten and adds the digit. -/
theorem digitsVal_append_singleton (xs : List Char) (c : Char) :
    digitsVal (xs ++ [c]) = 10 * digitsVal xs + digitVal c := by
  simp [digitsVal, List.foldl_append]

/-- The decimal digit list of a number denotes the number. -/
theorem digitsVal_pyDigitsAux (fuel : Nat) :
    ∀ n, n < fuel → digitsVal (pyDigitsAux fuel n) = n := by
  induction fuel with
  | zero => intro n h; omega
  | succ fuel ih =>
    intro n h
    by_cases h10 : n < 10
    · simp [pyDigitsAux, h10, digitsVal, pyDigitChar_val n h10]
    · have hdiv : n / 10 < fuel := by
        have := Nat.div_lt_self (by omega : 0 < n) (by omega : 1 < 10)
        omega
      simp only [pyDigitsAux, h10, if_false, digitsVal_append_singleton, ih _ hdiv,
        pyDigitChar_val (n % 10) (Nat.mod_lt n (by omega))]
      omega

/-- Every character of the decimal digit list is a digit. -/
theorem pyDigitsAux_digits (fuel : Nat) :
    ∀ n c, c ∈ pyDigitsAux fuel n → isDigitB c = true := by
  induction fuel with
  | zero => intro n c h; simp [pyDigitsAux] at h
  | succ fuel ih =>
    intro n c h
    by_cases h10 : n < 10
    · simp [pyDigitsAux, h10] at h
      subst h
      exact pyDigitChar_isDigit n h10
    · simp only [pyDigitsAux, h10, if_false, List.mem_append, List.mem_singleton] at h
      rcases h with h | h
      · exact ih _ c h
      · subst h
        exact pyDigitChar_isDigit (n % 10) (Nat.mod_lt n (by omega))

/-- The decimal spelling of a number denotes the number. -/
theorem digitsVal_pyDigits (n : Nat) : digitsVal (pyDigits n) = n :=
  digitsVal_pyDigitsAux (n + 1) n (by omega)

/-- Every character of the decimal spelling is a digit. -/
theorem pyDigits_digits (n : Nat) (c : Char) (h : c ∈ pyDigits n) : isDigitB c = true :=
  pyDigitsAux_digits (n + 1) n c h

/-- takeWhile walks through a fully satisfying prefix. -/
theorem takeWhile_append_all {p : Char → Bool} (xs ys : List Char)
    (h : ∀ x ∈ xs, p x = true) :
    (xs ++ ys).takeWhile p = xs ++ ys.takeWhile p := by
  induction xs with
  | nil => simp
  | cons x xs ih =>
    have hx := h x (by simp)
    simp [List.takeWhile_cons, hx]
    exact ih (fun a ha => h a (by simp [ha]))

/-- takeWhile of a list whose head fails the test is empty. -/
theorem takeWhile_eq_nil_of_head_false {p : Char → Bool} (l : List Char)
    (h : ∀ c, l.head? = some c → p c = false) :
    l.takeWhile p = [] := by
  cases l with
  | nil => rfl
  | cons x xs => simp [List.takeWhile_cons, h x rfl]

/-- The decimal suffix of a generated alias recovers the counter the alias
consumed, whenever the base does not itself end in a digit. -/
theorem counterOfAlias_append (b : String) (n : Nat)
    (h : endsInDigit b = false) :
    counterOfAlias (b ++ pyStr n) = n := by
  have hdata : (b ++ pyStr n).data = b.data ++ pyDigits n := by
    simp [pyStr, String.data_append]
  have hrev : (b.data ++ pyDigits n).reverse = (pyDigits n).reverse ++ b.data.reverse := by
    simp
  have hall : ∀ x ∈ (pyDigits n).reverse, isDigitB x = true := by
    intro x hx
    exact pyDigits_digits n x (List.mem_reverse.mp hx)
  have hhead : ∀ c, b.data.reverse.head? = some c → isDigitB c = false := by
    intro c hc
    unfold endsInDigit at h
    cases hb : b.data.reverse with
    | nil => rw [hb] at hc; simp at hc
    | cons x xs =>
      rw [hb] at hc h
      simp at hc
      subst hc
      simpa using h
  unfold counterOfAlias
  rw [hdata, hrev, takeWhile_append_all _ _ hall,
    takeWhile_eq_nil_of_head_false _ hhead]
  simp [digitsVal_pyDigits]

namespace PObj

/-- Every field coming out of the alias-assignment loop carries an alias. -/
theorem assign_aliases_all_some (fields : List QField) :
    ∀ n g, g ∈ (assign_aliases fields n).1 → g.sql_alias ≠ none := by
  induction fields with
  | nil => intro n g hg; simp [assign_aliases] at hg
  | cons f fs ih =>
    intro n g hg
    cases ha : f.sql_alias with
    | some a =>
      simp only [assign_aliases, ha] at hg
      rcases List.mem_cons.mp hg with rfl | hg
      · simp [ha]
      · exact ih n g hg
    | none =>
      simp only [assign_aliases, ha] at hg
      rcases List.mem_cons.mp hg with rfl | hg
      · simp
      · exact ih _ g hg

/-- Under alias-free fields with digit-free name ends, every assigned alias
decodes to a counter value at least the starting counter. -/
theorem assign_aliases_counter_ge (fields : List QField) :
    ∀ n, (∀ f ∈ fields, f.sql_alias = none) →
      (∀ f ∈ fields, endsInDigit (replaceDots f.name) = false) →
      ∀ g ∈ (assign_aliases fields n).1,
        ∃ s, g.sql_alias = some s ∧ n ≤ counterOfAlias s := by
  induction fields with
  | nil => intro n _ _ g hg; simp [assign_aliases] at hg
  | cons f fs ih =>
    intro n h1 h2 g hg
    have hf1 := h1 f (by simp)
    have hf2 := h2 f (by simp)
    simp only [assign_aliases, hf1] at hg
    rcases List.mem_cons.mp hg with rfl | hg
    · refine ⟨(make_alias f.name n).1, rfl, ?_⟩
      simp only [make_alias]
      rw [counterOfAlias_append _ _ hf2]
    · simp only [make_alias] at hg
      obtain ⟨s, hs, hns⟩ := ih (n + 1) (fun a ha => h1 a (by simp [ha]))
        (fun a ha => h2 a (by simp [ha])) g hg
      exact ⟨s, hs, by omega⟩

/-- Under alias-free fields with digit-free name ends, the assigned aliases
are pairwise distinct. -/
theorem assign_aliases_pairwise (fields : List QField) :
    ∀ n, (∀ f ∈ fields, f.sql_alias = none) →
      (∀ f ∈ fields, endsInDigit (replaceDots f.name) = false) →
      List.Pairwise (fun a b => a.sql_alias ≠ b.sql_alias)
        (assign_aliases fields n).1 := by
  induction fields with
  | nil => intro n _ _; simp [assign_aliases]
  | cons f fs ih =>
    intro n h1 h2
    have hf1 := h1 f (by simp)
    have hf2 := h2 f (by simp)
    have h1t : ∀ a ∈ fs, a.sql_alias = none := fun a ha => h1 a (by simp [ha])
    have h2t : ∀ a ∈ fs, endsInDigit (replaceDots a.name) = false :=
      fun a ha => h2 a (by simp [ha])
    simp only [assign_aliases, hf1]
    constructor
    · intro g hg
      obtain ⟨s, hs, hns⟩ :=
        assign_aliases_counter_ge fs ((make_alias f.name n).2) h1t h2t g hg
      simp only [make_alias] at hs hns ⊢
      rw [hs]
      intro hcontra
      have : counterOfAlias (replaceDots f.name ++ pyStr n) = counterOfAlias s := by
        injection hcontra with h
        rw [h]
      rw [counterOfAlias_append _ _ hf2] at this
      omega
    · exact ih _ h1t h2t

/-- Claim C8, counterexample to the claim as stated: eleven alias-free fields
whose names are b1, nine fillers, and b, constructed when the global alias
counter stands at 2, receive the generated aliases b12, x3 through x11, and
b12 again - the first and last alias collide, so the N aliases of a
constructed query node are not always pairwise distinct. -/
theorem claim_C8_counterexample :
    ¬ queryAliasesDistinct [] (some ((⟨("b1"), .intType, none⟩ : QField) ::
        (List.replicate 9 (⟨("x"), .intType, none⟩ : QField) ++
          [⟨("b"), .intType, none⟩]))) none 2 := by
  intro h
  exact absurd (h _ _ _ rfl) (by decide)

/-- Claim C8 (amended): every field without a pre-existing alias is assigned
a generated alias at construction, and the aliases across the whole
projected-plus-aggregated field list are pairwise distinct provided no field
carries a pre-existing alias and no field name ends in a digit (a
pre-existing duplicate alias, or a name ending in a digit, can defeat
uniqueness, see the counterexample). -/
theorem claim_C8 (cols fields ags : List QField) (n : Nat)
    (hb : ∀ f ∈ fields, isBackRefType f.type = false)
    (h1 : ∀ f ∈ fields, f.sql_alias = none)
    (h2 : ∀ f ∈ fields, endsInDigit (replaceDots f.name) = false)
    (h3 : ∀ f ∈ ags, endsInDigit (replaceDots f.name) = false) :
    ∃ fs ags1 n1, query_init cols (some fields) (some ags) n = .ok (fs, ags1, n1) ∧
      (∀ g ∈ fs ++ ags1, g.sql_alias ≠ none) ∧
      List.Pairwise (fun a b => a.sql_alias ≠ b.sql_alias) (fs ++ ags1) := by
  have hok := checkFields_ok fields hb
  have h1' : ∀ f ∈ fields ++ ags.map wrapAgg, f.sql_alias = none := by
    intro f hf
    rcases List.mem_append.mp hf with hf | hf
    · exact h1 f hf
    · obtain ⟨a, _, rfl⟩ := List.mem_map.mp hf
      rfl
  have h2' : ∀ f ∈ fields ++ ags.map wrapAgg, endsInDigit (replaceDots f.name) = false := by
    intro f hf
    rcases List.mem_append.mp hf with hf | hf
    · exact h2 f hf
    · obtain ⟨a, ha, rfl⟩ := List.mem_map.mp hf
      exact h3 a ha
  refine ⟨(assign_aliases (fields ++ ags.map wrapAgg) n).1.take fields.length,
          (assign_aliases (fields ++ ags.map wrapAgg) n).1.drop fields.length,
          (assign_aliases (fields ++ ags.map wrapAgg) n).2, ?_, ?_, ?_⟩
  · simp [query_init, hok, bind, Except.bind, pure, Except.pure]
  · rw [List.take_append_drop]
    exact fun g hg => assign_aliases_all_some (fields ++ ags.map wrapAgg) n g hg
  · rw [List.take_append_drop]
    exact assign_aliases_pairwise (fields ++ ags.map wrapAgg) n h1' h2'

/-- Witness for claim C8 (amended) at two concrete alias-free fields. -/
theorem claim_C8_witness :
    ∃ fs ags1 n1,
      query_init [] (some [⟨("a"), .intType, none⟩, ⟨("bb"), .strType, none⟩])
        (some []) 0 = .ok (fs, ags1, n1) ∧
      (∀ g ∈ fs ++ ags1, g.sql_alias ≠ none) ∧
      List.Pairwise (fun a b => a.sql_alias ≠ b.sql_alias) (fs ++ ags1) :=
  claim_C8 [] [⟨("a"), .intType, none⟩, ⟨("bb"), .strType, none⟩] [] 0
    (by decide) (by decide) (by decide) (by decide)

end PObj

namespace PCasts

mutual

/-- The modelled subtype order is reflexive. -/
theorem subt_refl : (t : PqlType) → subt t t = true
  | .tnull => rfl
  | .tbool => rfl
  | .tint => rfl
  | .tfloat => rfl
  | .tstring => rfl
  | .tid => rfl
  | .trelation => rfl
  | .tunknown => rfl
  | .tany => rfl
  | .tlist a => by simp [subt, subt_refl a]
  | .taggregate a => by simp [subt, subt_refl a]
  | .tvectorized a => by simp [subt, subt_refl a]
  | .ttable es => by simp [subt, subtFields_refl es]

/-- Componentwise field subtyping is reflexive. -/
theorem subtFields_refl : (fs : PqlFields) → subtFields fs fs = true
  | .nil => rfl
  | .cons n t r => by simp [subtFields, subt_refl t, subtFields_refl r]

end

/-- Claim C3: casting an instance to its own type - more generally, to any
supertype of its type - returns the very same instance, so its rendered SQL
fragment is unchanged and no cast node is emitted. -/
theorem claim_C3 (target : SqlTarget) (inst : Instance) (t : PqlType)
    (h : subt inst.type t = true) :
    cast target inst t = .ok inst := by
  simp [cast, h]

/-- Witness for claim C3: an int-typed instance cast to int comes back
unchanged (the subtype side condition holds by reflexivity). -/
theorem claim_C3_witness :
    subt (Instance.mk (.columnRef ("x")) .tint).type .tint = true ∧
    cast .sqlite (.mk (.columnRef ("x")) .tint) .tint
      = .ok (.mk (.columnRef ("x")) .tint) :=
  ⟨rfl, claim_C3 .sqlite (.mk (.columnRef ("x")) .tint) .tint rfl⟩

/-- Claim C4: casting a table instance to a list type succeeds exactly for
single-column tables whose column type is a subtype of the target element
type, producing a single-column projection aliased value whose element type
is the column type; a table with more than one column fails with the
too-many-columns TypeError, and a single-column table with a non-matching
element fails with the elements-not-matching TypeError. -/
theorem claim_C4 (target : SqlTarget) :
    (∀ (nm : String) (et b : PqlType) (i : Instance),
      subt et b = true →
      _cast target (.ttable (.cons nm et .nil)) (.tlist b) i
        = .ok (.mk (.select (.tlist et) i.code [.columnAlias (.name et nm) ("value")])
            (.tlist et))) ∧
    (∀ (n1 n2 : String) (t1 t2 b : PqlType) (r : PqlFields) (i : Instance),
      _cast target (.ttable (.cons n1 t1 (.cons n2 t2 r))) (.tlist b) i
        = .error (.tooManyColumns (.ttable (.cons n1 t1 (.cons n2 t2 r))) (.tlist b))) ∧
    (∀ (nm : String) (et b : PqlType) (i : Instance),
      subt et b = false →
      _cast target (.ttable (.cons nm et .nil)) (.tlist b) i
        = .error (.elementsNotMatching (.ttable (.cons nm et .nil)) (.tlist b))) := by
  refine ⟨?_, ?_, ?_⟩
  · intro nm et b i h
    simp [_cast, h, Instance.make]
  · intro n1 n2 t1 t2 b r i
    simp [_cast]
  · intro nm et b i h
    simp [_cast, h]

/-- Witness for claim C4: a one-column int table casts to list of int with
the value-aliased projection; a two-column table raises too-many-columns; a
one-column string table cast to list of int raises elements-not-matching. -/
theorem claim_C4_witness :
    (_cast .sqlite (.ttable (.cons ("v") .tint .nil)) (.tlist .tint)
        (.mk (.columnRef ("t")) (.ttable (.cons ("v") .tint .nil)))
      = .ok (.mk (.select (.tlist .tint) (.columnRef ("t"))
          [.columnAlias (.name .tint ("v")) ("value")]) (.tlist .tint))) ∧
    (_cast .sqlite (.ttable (.cons ("v") .tint (.cons ("w") .tint .nil))) (.tlist .tint)
        (.mk (.columnRef ("t")) (.ttable (.cons ("v") .tint (.cons ("w") .tint .nil))))
      = .error (.tooManyColumns (.ttable (.cons ("v") .tint (.cons ("w") .tint .nil)))
          (.tlist .tint))) ∧
    (_cast .sqlite (.ttable (.cons ("v") .tstring .nil)) (.tlist .tint)
        (.mk (.columnRef ("t")) (.ttable (.cons ("v") .tstring .nil)))
      = .error (.elementsNotMatching (.ttable (.cons ("v") .tstring .nil))
          (.tlist .tint))) :=
  ⟨(claim_C4 .sqlite).1 ("v") .tint .tint
      (.mk (.columnRef ("t")) (.ttable (.cons ("v") .tint .nil))) rfl,
   (claim_C4 .sqlite).2.1 ("v") ("w") .tint .tint .tint .nil
      (.mk (.columnRef ("t")) (.ttable (.cons ("v") .tint (.cons ("w") .tint .nil)))),
   (claim_C4 .sqlite).2.2 ("v") .tstring .tint
      (.mk (.columnRef ("t")) (.ttable (.cons ("v") .tstring .nil))) rfl⟩

/-- Claim C9: casting a bool-typed or float-typed instance to int emits a
cast node around the unchanged input fragment, whose target-type spelling is
signed integer under the mysql target and int under the other targets; the
input instance is left untouched (the emitted node wraps its original code
fragment). -/
theorem claim_C9 (code : SqlC) :
    (_cast .mysql .tbool .tint (.mk code .tbool)
      = .ok (.mk (.cast .tint ("signed integer") code) .tint)) ∧
    (_cast .mysql .tfloat .tint (.mk code .tfloat)
      = .ok (.mk (.cast .tint ("signed integer") code) .tint)) ∧
    (_cast .sqlite .tbool .tint (.mk code .tbool)
      = .ok (.mk (.cast .tint ("int") code) .tint)) ∧
    (_cast .sqlite .tfloat .tint (.mk code .tfloat)
      = .ok (.mk (.cast .tint ("int") code) .tint)) ∧
    (_cast .postgres .tbool .tint (.mk code .tbool)
      = .ok (.mk (.cast .tint ("int") code) .tint)) ∧
    (_cast .postgres .tfloat .tint (.mk code .tfloat)
      = .ok (.mk (.cast .tint ("int") code) .tint)) :=
  ⟨rfl, rfl, rfl, rfl, rfl, rfl⟩

end PCasts
